import Mathlib

/-!
Verification development for the SuperVision risk-scanner repository.

The definitions below are a shallow embedding of the scan-management module
(`ScanContext`: `generateScan`, `startScan`, `getScanById`, `fixIssue`,
`convertToLatestScanData`, `fetchMicrosoftGraphData`) and of the Graph API
wrapper (`callGraphApi`), translated from the TypeScript source.

Modelling conventions, used consistently below:
* JavaScript numbers that only ever hold integers are modelled as `Int`
  (or `Nat` for counts); `Math.max`/`Math.min` become `max`/`min` on `Int`.
* Optional / possibly-absent JSON fields are `Option _`; the JS guard
  `x || d` on strings (which also replaces the empty string) is `jsOr`.
* `JSON.parse (JSON.stringify v)` is the identity on the modelled records,
  so browser storage is an association list from keys to records, where
  `setItem` prepends and `getItem` returns the most recent binding.
* `Date.now()` and `new Date().toISOString()` are modelled by a `now : Nat`
  parameter rendered with `toString` (the source renders the tick count in
  base 36 for scan ids; both renderings are injective and no claim depends
  on the digit set).  `toLocaleString` date formatting is the identity.
* A JavaScript `TypeError` thrown by a property access on `undefined` is
  modelled with `Except String`.
-/

/-! ## String helpers (JS `toLowerCase`, `includes`, `endsWith`, `||`) -/

/-- ASCII lower-casing of one character, as JS `toLowerCase` acts on the
ASCII strings appearing in this code base. -/
def lowerChar (c : Char) : Char :=
  if 'A' ≤ c ∧ c ≤ 'Z' then Char.ofNat (c.toNat + 32) else c

/-- JS `String.prototype.toLowerCase` on ASCII strings. -/
def strLower (s : String) : String :=
  ⟨s.data.map lowerChar⟩

/-- Does `t` start with `pat` (character lists)? -/
def leadsWith : List Char → List Char → Bool
  | [], _ => true
  | _ :: _, [] => false
  | a :: pat, b :: t => a = b && leadsWith pat t

/-- Does `t` contain `pat` as a contiguous run (character lists)? -/
def hasSub (pat : List Char) : List Char → Bool
  | [] => leadsWith pat []
  | b :: t => leadsWith pat (b :: t) || hasSub pat t

/-- JS `String.prototype.includes`. -/
def strIncludes (s pat : String) : Bool :=
  hasSub pat.data s.data

/-- JS `String.prototype.endsWith`. -/
def strEndsWith (s pat : String) : Bool :=
  leadsWith pat.data.reverse s.data.reverse

/-- JS `v || d` for an optional string `v`: `undefined` and the empty
string both fall back to the default. -/
def jsOr (v : Option String) (d : String) : String :=
  match v with
  | none => d
  | some s => if s = "" then d else s

/-- JS truthiness of an optional string (`undefined` and `""` are falsy). -/
def jsTruthyS (v : Option String) : Bool :=
  match v with
  | none => false
  | some s => s ≠ ""

/-- Replace the blank characters of the issue-type names by underscores,
as the `replace(/\s+/g, '_')` in the api-error issue ids does (the grouped
type names only contain single blanks, so the per-character replacement
agrees with the regex). -/
def spacesToUnderscore (s : String) : String :=
  ⟨s.data.map (fun c => if c = ' ' then '_' else c)⟩

/-! ## Data model (`SecurityIssue`, `ScanSummary`, `ScanData`)

The TS interfaces mark some of these fields required, but the runtime JSON
written back by `fixIssue` omits several of them (`type`, `affectedObject`,
`issueCountsBySeverity`, …), so the model makes every field that some
persisted record may lack an `Option`.  The untyped `details` field is
never inspected by the code under verification and is omitted. -/

inductive Severity where
  | High
  | Medium
  | Low
deriving DecidableEq

structure AffectedObject where
  type : String
  id : String
  name : String
deriving DecidableEq

structure SecurityIssue where
  id : String
  type : Option String := none
  severity : Severity
  affectedObject : Option AffectedObject := none
  description : Option String := none
  recommendation : Option String := none
  impact : Option String := none
  remediation : Option String := none
  status : Option String := none
  canAutoFix : Option Bool := none
  category : Option String := none
  title : Option String := none
  affectedItems : Option (List String) := none
  isRealData : Option Bool := none
deriving DecidableEq

structure SeverityCounts where
  High : Nat
  Medium : Nat
  Low : Nat
deriving DecidableEq

structure ScanSummary where
  id : String
  timestamp : String
  tenantId : Option String := none
  tenantName : Option String := none
  overallRiskScore : Option Int := none
  issueCountsByCategory : Option (List (String × Nat)) := none
  issueCountsBySeverity : Option SeverityCounts := none
  totalAccountsScanned : Option Nat := none
  totalGroupsScanned : Option Nat := none
  totalPoliciesScanned : Option Nat := none
  totalDevicesScanned : Option Nat := none
  totalMailboxesScanned : Option Nat := none
deriving DecidableEq

/-- A scan snapshot, which is also the shape of the JSON blob persisted
under the `scan_<id>` storage key (the `rawData` echo of the collector
payloads is never read back and is omitted). -/
structure ScanData where
  summary : ScanSummary
  issues : List SecurityIssue
  apiErrors : Option (List String) := none
  usesRealData : Option Bool := none
deriving DecidableEq

/-! ## Browser storage -/

/-- `localStorage.setItem`: later writes shadow earlier ones. -/
def setItem {α : Type} (st : List (String × α)) (k : String) (v : α) :
    List (String × α) :=
  (k, v) :: st

/-- `localStorage.getItem`. -/
def getItem {α : Type} (st : List (String × α)) (k : String) : Option α :=
  (st.find? (fun p => p.1 = k)).map (fun p => p.2)

/-! ## Collector result consumed by `generateScan`

Only the fields `generateScan` reads are modelled.  Datasets of which only
the length is used are lists of opaque `String` payloads. -/

structure GraphUser where
  userPrincipalName : Option String := none
deriving DecidableEq

structure MfaUser where
  userPrincipalName : Option String := none
  isMfaEnabled : Bool := false
deriving DecidableEq

structure ForwardingRule where
  forwardTo : Option String := none
  mailbox : Option String := none
deriving DecidableEq

structure RealData where
  apiErrors : List String := []
  users : List String := []
  riskyUsers : List GraphUser := []
  mfaStatus : List MfaUser := []
  inactiveUsers : List GraphUser := []
  emailForwarding : List ForwardingRule := []
  guestUsers : List GraphUser := []
  groups : List String := []
  conditionalAccess : List String := []
  deviceCompliance : List String := []
  sharedMailboxes : List String := []
deriving DecidableEq

/-! ## `generateScan`: issue detectors -/

/-- Detector for `realData.riskyUsers` (one grouped High issue). -/
def riskyUsersIssues (now : Nat) (rd : RealData) : List SecurityIssue :=
  if rd.riskyUsers ≠ [] then
    [{ id := "risky_users_" ++ toString now
     , type := some "Risky Users Detected"
     , severity := .High
     , affectedObject := some ⟨"User", "multiple", "Multiple Users"⟩
     , description := some "Multiple user accounts have been flagged as risky"
     , impact := some "Potential account compromise or suspicious activity"
     , remediation := some "Review user activity and reset credentials if necessary"
     , status := some "Open"
     , isRealData := some true
     , affectedItems := some (rd.riskyUsers.map (fun u => jsOr u.userPrincipalName "Unknown User")) }]
  else []

/-- Detector for users without MFA (one grouped High issue). -/
def mfaIssues (now : Nat) (rd : RealData) : List SecurityIssue :=
  if rd.mfaStatus ≠ [] then
    let usersWithoutMFA := rd.mfaStatus.filter (fun u => !u.isMfaEnabled)
    if usersWithoutMFA ≠ [] then
      [{ id := "mfa_disabled_" ++ toString now
       , type := some "MFA Not Configured"
       , severity := .High
       , affectedObject := some ⟨"User", "multiple", "Multiple Users"⟩
       , description := some "Multiple user accounts do not have Multi-Factor Authentication enabled"
       , impact := some "Increased risk of account compromise"
       , remediation := some "Enable Multi-Factor Authentication for these users"
       , status := some "Open"
       , isRealData := some true
       , affectedItems := some (usersWithoutMFA.map (fun u => jsOr u.userPrincipalName "Unknown User")) }]
    else []
  else []

/-- Detector for inactive accounts (one grouped Medium issue). -/
def inactiveIssues (now : Nat) (rd : RealData) : List SecurityIssue :=
  if rd.inactiveUsers ≠ [] then
    [{ id := "inactive_users_" ++ toString now
     , type := some "Inactive Accounts"
     , severity := .Medium
     , affectedObject := some ⟨"User", "multiple", "Multiple Users"⟩
     , description := some "Multiple user accounts have been inactive for an extended period"
     , impact := some "Potential security risk from unused accounts"
     , remediation := some "Review and disable or delete inactive accounts"
     , status := some "Open"
     , isRealData := some true
     , affectedItems := some (rd.inactiveUsers.map (fun u => jsOr u.userPrincipalName "Unknown User")) }]
  else []

/-- The external-forwarding test of the detector:
`rule.forwardTo && !rule.forwardTo.endsWith(tenantName || '')`. -/
def isExternalRule (tenantName : Option String) (r : ForwardingRule) : Bool :=
  jsTruthyS r.forwardTo && !(strEndsWith (jsOr r.forwardTo "") (tenantName.getD ""))

/-- Detector for external email forwarding (one grouped Medium issue). -/
def forwardingIssues (now : Nat) (tenantName : Option String) (rd : RealData) :
    List SecurityIssue :=
  if rd.emailForwarding ≠ [] then
    let externalForwarding := rd.emailForwarding.filter (isExternalRule tenantName)
    if externalForwarding ≠ [] then
      [{ id := "forwarding_rules_" ++ toString now
       , type := some "External Email Forwarding"
       , severity := .Medium
       , affectedObject := some ⟨"Mailbox", "multiple", "Multiple Mailboxes"⟩
       , description := some "Multiple mailboxes have rules forwarding emails to external addresses"
       , impact := some "Potential data leakage through email forwarding"
       , remediation := some "Review and remove unauthorized forwarding rules"
       , status := some "Open"
       , isRealData := some true
       , affectedItems := some (externalForwarding.map (fun r => jsOr r.mailbox "Unknown Mailbox")) }]
    else []
  else []

/-- The keyword classifier grouping failed api endpoints. -/
def classifyError (e : String) : String :=
  if strIncludes e "identityProtection" then "Identity Protection"
  else if strIncludes e "mailFolders" then "Mail Settings"
  else if strIncludes e "security" then "Security Settings"
  else if strIncludes e "subscribedSkus" then "License Management"
  else "API Access"

/-- One step of the `reduce` that groups the api errors by classified type,
keeping insertion order (a JS object keeps its keys in insertion order). -/
def addToBucket (acc : List (String × List String)) (k v : String) :
    List (String × List String) :=
  if acc.any (fun p => p.1 = k) then
    acc.map (fun p => if p.1 = k then (p.1, p.2 ++ [v]) else p)
  else acc ++ [(k, [v])]

/-- The `errorsByType` grouping of `generateScan`. -/
def errorsByType (errs : List String) : List (String × List String) :=
  errs.foldl (fun acc e => addToBucket acc (classifyError e) e) []

/-- The synthetic Medium issue generated per error group. -/
def mkApiErrorIssue (now : Nat) (bucket : String × List String) : SecurityIssue :=
  { id := "api_error_" ++ spacesToUnderscore (strLower bucket.1) ++ "_" ++ toString now
  , type := some (bucket.1 ++ " Access Required")
  , severity := .Medium
  , affectedObject := some ⟨"Policy", "multiple", bucket.1⟩
  , description := some ("Unable to access " ++ strLower bucket.1 ++ " settings due to insufficient permissions")
  , impact := some "Limited visibility into security settings and potential risks"
  , remediation := some "Grant necessary permissions to access these security settings"
  , status := some "Open"
  , isRealData := some true
  , affectedItems := some bucket.2 }

/-- Detector turning failed api endpoints into grouped Medium issues. -/
def apiErrorIssues (now : Nat) (rd : RealData) : List SecurityIssue :=
  if rd.apiErrors ≠ [] then (errorsByType rd.apiErrors).map (mkApiErrorIssue now)
  else []

/-- Detector for guest users (one grouped Low issue). -/
def guestIssues (now : Nat) (rd : RealData) : List SecurityIssue :=
  if rd.guestUsers ≠ [] then
    [{ id := "guest_users_" ++ toString now
     , type := some "Guest User Access"
     , severity := .Low
     , affectedObject := some ⟨"User", "multiple", "Multiple Guest Users"⟩
     , description := some "Multiple external guest users have access to tenant resources"
     , impact := some "Potential security risk from external access"
     , remediation := some "Review guest user access and remove if unnecessary"
     , status := some "Open"
     , isRealData := some true
     , affectedItems := some (rd.guestUsers.map (fun u => jsOr u.userPrincipalName "Unknown Guest")) }]
  else []

/-- The full issue list of a scan, in source order of the detectors. -/
def generateScanIssues (now : Nat) (tenantName : Option String) (rd : RealData) :
    List SecurityIssue :=
  riskyUsersIssues now rd ++ mfaIssues now rd ++ inactiveIssues now rd
    ++ forwardingIssues now tenantName rd ++ apiErrorIssues now rd ++ guestIssues now rd

/-! ## `generateScan`: scoring and summary -/

/-- Number of issues of a given severity (the `issues.filter(...).length`
computations of `generateScan`). -/
def countSeverity (s : Severity) (issues : List SecurityIssue) : Nat :=
  (issues.filter (fun i => i.severity = s)).length

def severityCountsOf (issues : List SecurityIssue) : SeverityCounts :=
  ⟨countSeverity .High issues, countSeverity .Medium issues, countSeverity .Low issues⟩

/-- The risk-score computation of `generateScan` (lines 1562-1575): start
from 100 and, if any issue exists, apply the weighted impacts clamped by
`Math.max(Math.min(·, 100), 0)`. -/
def computeRiskScore (high medium low : Nat) : Int :=
  let highImpact : Int := -15 * high
  let mediumImpact : Int := -7 * medium
  let lowImpact : Int := -3 * low
  if high > 0 ∨ medium > 0 ∨ low > 0 then
    max (min (100 + highImpact + mediumImpact + lowImpact) 100) 0
  else 100

/-- One step of the per-category issue count (`categoryCount`), keyed by
`issue.affectedObject.type` in insertion order. -/
def bumpCategory (acc : List (String × Nat)) (c : String) : List (String × Nat) :=
  if acc.any (fun p => p.1 = c) then
    acc.map (fun p => if p.1 = c then (p.1, p.2 + 1) else p)
  else acc ++ [(c, 1)]

def categoryCountsOf (issues : List SecurityIssue) : List (String × Nat) :=
  issues.foldl
    (fun acc i => bumpCategory acc ((i.affectedObject.map (fun a => a.type)).getD "")) []

/-- `generateScan` of the scan-management module: evaluate the detectors on
the collector result and assemble the summary and snapshot. -/
def generateScan (now : Nat) (tenantId : String) (tenantName : Option String)
    (realData : Option RealData) : ScanData :=
  let scanId := "scan_" ++ toString now
  let issues := match realData with
    | none => []
    | some rd => generateScanIssues now tenantName rd
  let severityCount := severityCountsOf issues
  let categoryCount := categoryCountsOf issues
  let overallRiskScore :=
    computeRiskScore severityCount.High severityCount.Medium severityCount.Low
  { summary :=
      { id := scanId
      , timestamp := toString now
      , tenantId := some tenantId
      , tenantName := some (jsOr tenantName "Your Microsoft 365 Tenant")
      , overallRiskScore := some overallRiskScore
      , issueCountsByCategory := some categoryCount
      , issueCountsBySeverity := some severityCount
      , totalAccountsScanned := some ((realData.map (fun rd => rd.users.length)).getD 0)
      , totalGroupsScanned := some ((realData.map (fun rd => rd.groups.length)).getD 0)
      , totalPoliciesScanned := some ((realData.map (fun rd => rd.conditionalAccess.length)).getD 0)
      , totalDevicesScanned := some ((realData.map (fun rd => rd.deviceCompliance.length)).getD 0)
      , totalMailboxesScanned := some ((realData.map (fun rd =>
          rd.sharedMailboxes.length + rd.emailForwarding.length)).getD 0) }
  , issues := issues
  , apiErrors := some ((realData.map (fun rd => rd.apiErrors)).getD [])
  , usesRealData := some true }

/-! ## `getScanById`: the storage read path (lines 940-992)

The claims about persisted scans concern the branch of `getScanById` that
parses the `scan_<id>` blob from browser storage; the in-memory
`currentScan` fast path and the `"latest"` alias resolve to the same data
and are not modelled.  Reading `summary.issueCountsBySeverity.High` or
`issue.affectedObject.type` from a blob lacking those objects raises a
`TypeError` in JS, modelled by the `Except` error case. -/

structure ViewIssue where
  id : String
  title : Option String
  severity : Severity
  description : Option String
  impact : String
  recommendation : Option String
  status : String
  canAutoFix : Bool
  category : String
  affectedItems : List String
  isRealData : Option Bool
deriving DecidableEq

structure ScanView where
  id : String
  date : String
  securityScore : Int
  highRiskIssues : Nat
  mediumRiskIssues : Nat
  lowRiskIssues : Nat
  issuesFixed : Nat
  usesRealData : Option Bool
  apiErrors : List String
  issues : List ViewIssue
deriving DecidableEq

/-- The per-issue re-mapping performed by `getScanById`. -/
def viewOfIssue (i : SecurityIssue) : ViewIssue :=
  { id := i.id
  , title := i.type
  , severity := i.severity
  , description := i.description
  , impact := jsOr i.impact "Potential security risk"
  , recommendation := i.remediation
  , status := jsOr i.status "Open"
  , canAutoFix :=
      i.type = some "MFA Disabled" || i.type = some "Inactive Account"
        || i.type = some "Weak Spam Filter" || i.type = some "MFA Not Configured"
  , category := strLower ((i.affectedObject.map (fun a => a.type)).getD "")
  , affectedItems := ((i.affectedObject.map (fun a => a.name)).getD "") :: i.affectedItems.getD []
  , isRealData := i.isRealData }

/-- The object literal returned by the storage branch of `getScanById`. -/
def mkScanView (b : ScanData) (counts : SeverityCounts) : ScanView :=
  { id := b.summary.id
  , date := b.summary.timestamp
  , securityScore := b.summary.overallRiskScore.getD 0
  , highRiskIssues := counts.High
  , mediumRiskIssues := counts.Medium
  , lowRiskIssues := counts.Low
  , issuesFixed := (b.issues.filter (fun i => i.status = some "Fixed")).length
  , usesRealData := b.usesRealData
  , apiErrors := b.apiErrors.getD []
  , issues := b.issues.map viewOfIssue }

/-- Evaluate the storage branch of `getScanById` on a parsed blob. -/
def readScanView (b : ScanData) : Except String ScanView :=
  match b.summary.issueCountsBySeverity with
  | none => .error "TypeError: issueCountsBySeverity is undefined"
  | some counts =>
    if b.issues.all (fun i => i.affectedObject.isSome) then
      .ok (mkScanView b counts)
    else .error "TypeError: affectedObject is undefined"

/-- `getScanById` over the storage association list. -/
def getScanByIdFromStorage (blobs : List (String × ScanData)) (scanId : String) :
    Except String (Option ScanView) :=
  match getItem blobs ("scan_" ++ scanId) with
  | none => .ok none
  | some b => (readScanView b).map some

/-! ## `fixIssue` (lines 1236-1301) -/

/-- The issue shape `fixIssue` writes back: the spread of the view-shaped
issue with its `status` forced.  The written JSON has the view's keys
(`title`, `category`, flattened `affectedItems`) and lacks `type`,
`remediation` and `affectedObject`. -/
def issueOfView (v : ViewIssue) : SecurityIssue :=
  { id := v.id
  , type := none
  , severity := v.severity
  , affectedObject := none
  , description := v.description
  , recommendation := v.recommendation
  , impact := some v.impact
  , remediation := none
  , status := some v.status
  , canAutoFix := some v.canAutoFix
  , category := some v.category
  , title := v.title
  , affectedItems := some v.affectedItems
  , isRealData := v.isRealData }

/-- The summary `fixIssue` writes back: the flat view object spread with
`id`, `timestamp := scan.date` and `overallRiskScore := scan.securityScore`
forced.  Only the keys later read by the storage read path are retained;
in particular the written summary has no `issueCountsBySeverity`. -/
def summaryOfView (s : ScanView) : ScanSummary :=
  { id := s.id
  , timestamp := s.date
  , overallRiskScore := some s.securityScore
  , issueCountsBySeverity := none }

/-- `fixIssue`: re-read the scan, locate the issue, flip its status to
`"Fixed"` and re-persist the snapshot.  Every failure (missing scan,
missing issue, a thrown `TypeError`) is caught and leaves storage
untouched. -/
def fixIssue (blobs : List (String × ScanData)) (scanId issueId : String) :
    List (String × ScanData) :=
  match getScanByIdFromStorage blobs scanId with
  | .error _ => blobs
  | .ok none => blobs
  | .ok (some scan) =>
    match scan.issues.find? (fun i => i.id = issueId) with
    | none => blobs
    | some _ =>
      let updatedIssues := scan.issues.map
        (fun i => if i.id = issueId then { i with status := "Fixed" } else i)
      setItem blobs ("scan_" ++ scanId)
        { summary := summaryOfView scan
        , issues := updatedIssues.map issueOfView }

/-- The `issuesFixed` count `getScanById` reports for a persisted blob:
`parsedScan.issues.filter(i => i.status === "Fixed").length`. -/
def reportedIssuesFixed (b : ScanData) : Nat :=
  (b.issues.filter (fun i => i.status = some "Fixed")).length

/-! ## `startScan` persistence (lines 866-883) -/

/-- `[scanData.summary, ...scanHistory].slice(0, 10)`. -/
def updatedScanHistory (s : ScanSummary) (history : List ScanSummary) :
    List ScanSummary :=
  (s :: history).take 10

/-- The two `localStorage.setItem` writes of `startScan`. -/
def startScanPersist (histories : List (String × List ScanSummary))
    (blobs : List (String × ScanData)) (tenantId : String)
    (scanHistory : List ScanSummary) (scanData : ScanData) :
    List (String × List ScanSummary) × List (String × ScanData) :=
  (setItem histories ("scanHistory_" ++ tenantId)
     (updatedScanHistory scanData.summary scanHistory),
   setItem blobs ("scan_" ++ scanData.summary.id) scanData)

/-! ## `convertToLatestScanData` (lines 593-678) -/

/-- The category keyword table, in source object order. -/
def categoryDefs : List (String × List String) :=
  [("securityPosture", ["Policy", "SecurityDefaults", "ComplianceScore", "SecureScore", "Organization"]),
   ("identityAccess", ["User", "Role", "Authentication", "MFA", "Guest", "Admin", "Identity"]),
   ("deviceApp", ["Device", "Application", "Intune", "Endpoint"]),
   ("dataProtection", ["Mailbox", "SharePoint", "DLP", "Exchange", "Email", "Domain"]),
   ("licenseManagement", ["License", "Subscription"])]

structure CatState where
  score : Int := 100
  issues : Nat := 0
deriving DecidableEq

/-- Does an issue match a category's keyword list?  (`category` is
`issue.affectedObject.type`; a blob missing that object would raise a
`TypeError` in JS, a path none of the verified claims exercises.) -/
def catMatch (issue : SecurityIssue) (keywords : List String) : Bool :=
  let category := (issue.affectedObject.map (fun a => a.type)).getD ""
  keywords.any (fun t =>
    strIncludes (strLower category) (strLower t)
      || (jsTruthyS issue.type && strIncludes (strLower (issue.type.getD "")) (strLower t)))

def severityImpact (s : Severity) : Int :=
  match s with
  | .High => 15
  | .Medium => 7
  | .Low => 3

/-- Charge one issue to the first matching category (`break` after the
first hit, unmatched issues are dropped). -/
def applyIssue : List (String × List String × CatState) → SecurityIssue →
    List (String × List String × CatState)
  | [], _ => []
  | (k, kws, st) :: rest, issue =>
    if catMatch issue kws then
      (k, kws,
        { issues := st.issues + 1
        , score := max 0 (st.score - severityImpact issue.severity) }) :: rest
    else (k, kws, st) :: applyIssue rest issue

def catInit : List (String × List String × CatState) :=
  categoryDefs.map (fun p => (p.1, p.2, ({} : CatState)))

def getCatState (l : List (String × List String × CatState)) (k : String) : CatState :=
  ((l.find? (fun e => e.1 = k)).map (fun e => e.2.2)).getD {}

/-- The issues `convertToLatestScanData` loads from the `scan_<id>` blob
(`[]` when the blob is missing). -/
def storedIssues (blobs : List (String × ScanData)) (id : String) :
    List SecurityIssue :=
  match getItem blobs ("scan_" ++ id) with
  | some b => b.issues
  | none => []

structure LatestScanData where
  id : String
  date : String
  securityScore : Option Int
  highRiskIssues : Nat
  mediumRiskIssues : Nat
  lowRiskIssues : Nat
  issuesFixed : Nat
  securityPostureScore : Int
  identityAccessScore : Int
  deviceAppScore : Int
  dataProtectionScore : Int
  licenseManagementScore : Int
  securityPostureIssues : Nat
  identityAccessIssues : Nat
  deviceAppIssues : Nat
  dataProtectionIssues : Nat
  licenseManagementIssues : Nat
  usesRealData : Bool
  issues : List SecurityIssue
deriving DecidableEq

/-- `convertToLatestScanData`: derive the dashboard record (category scores
and counts, recomputed overall score) from a summary and the persisted
blob. -/
def convertToLatestScanData (blobs : List (String × ScanData))
    (summary : ScanSummary) : LatestScanData :=
  let parsedData := getItem blobs ("scan_" ++ summary.id)
  let issues := storedIssues blobs summary.id
  let cats := issues.foldl applyIssue catInit
  let highRiskIssues := countSeverity .High issues
  let mediumRiskIssues := countSeverity .Medium issues
  let lowRiskIssues := countSeverity .Low issues
  let securityScore :=
    if highRiskIssues > 0 ∨ mediumRiskIssues > 0 ∨ lowRiskIssues > 0 then
      some (max 0 (min 100 (100 - ((highRiskIssues : Int) * 15
        + (mediumRiskIssues : Int) * 7 + (lowRiskIssues : Int) * 3))))
    else summary.overallRiskScore
  { id := summary.id
  , date := summary.timestamp
  , securityScore := securityScore
  , highRiskIssues := highRiskIssues
  , mediumRiskIssues := mediumRiskIssues
  , lowRiskIssues := lowRiskIssues
  , issuesFixed := (issues.filter (fun i => i.status = some "Fixed")).length
  , securityPostureScore := (getCatState cats "securityPosture").score
  , identityAccessScore := (getCatState cats "identityAccess").score
  , deviceAppScore := (getCatState cats "deviceApp").score
  , dataProtectionScore := (getCatState cats "dataProtection").score
  , licenseManagementScore := (getCatState cats "licenseManagement").score
  , securityPostureIssues := (getCatState cats "securityPosture").issues
  , identityAccessIssues := (getCatState cats "identityAccess").issues
  , deviceAppIssues := (getCatState cats "deviceApp").issues
  , dataProtectionIssues := (getCatState cats "dataProtection").issues
  , licenseManagementIssues := (getCatState cats "licenseManagement").issues
  , usesRealData := ((parsedData.map (fun b => b.usesRealData)).getD none).getD false
  , issues := issues }

/-! ## `callGraphApi` (the Graph API wrapper) -/

/-- A parsed JSON payload: the `value` array (opaque elements) and the
`error.message` field read from Graph error bodies.  Payload shapes that
carry other keys are flattened onto `value`; no verified claim inspects
payload contents. -/
structure GraphPayload where
  value : List String := []
  errorMessage : Option String := none
deriving DecidableEq

structure GraphApiResponse where
  success : Bool
  data : Option GraphPayload := none
  error : Option String := none
  statusCode : Option Nat := none
deriving DecidableEq

/-- What the environment does with one `fetch`: either the promise rejects
(a network error), or an HTTP response arrives with a status code and a
body whose JSON parse succeeds (`some`) or throws (`none`). -/
inductive NetOutcome where
  | netFail (msg : Option String)
  | http (status : Nat) (body : Option GraphPayload)
deriving DecidableEq

structure CallResult where
  response : GraphApiResponse
  networkUsed : Bool
deriving DecidableEq

/-- `response.ok`: status in the 2xx range. -/
def httpOk (status : Nat) : Bool :=
  200 ≤ status && status < 300

/-- `callGraphApi`: guard on the empty token, issue the request, turn a
non-2xx status into a failure carrying that status, treat 204/DELETE as an
empty success, and convert every thrown network or parse error into a 500
failure. -/
def callGraphApi (endpoint accessToken method : String) (body : Option String)
    (net : NetOutcome) : CallResult :=
  let _ := endpoint
  let _ := body
  if accessToken = "" then
    ⟨{ success := false
     , error := some "No access token provided"
     , statusCode := some 401 }, false⟩
  else
    match net with
    | .netFail msg =>
      ⟨{ success := false
       , error := some (msg.getD "Unknown error occurred")
       , statusCode := some 500 }, true⟩
    | .http status bodyJson =>
      if !httpOk status then
        match bodyJson with
        | none =>
          ⟨{ success := false
           , error := some "Unknown error occurred"
           , statusCode := some 500 }, true⟩
        | some errorData =>
          ⟨{ success := false
           , error := some (jsOr errorData.errorMessage "Unknown Graph API error")
           , statusCode := some status }, true⟩
      else if status = 204 || method = "DELETE" then
        ⟨{ success := true, data := some {} }, true⟩
      else
        match bodyJson with
        | none =>
          ⟨{ success := false
           , error := some "Unknown error occurred"
           , statusCode := some 500 }, true⟩
        | some d => ⟨{ success := true, data := some d }, true⟩

/-! ## `fetchMicrosoftGraphData` (the parallel collector, lines 686-837)

The batch issues 29 calls whose settled results are destructured by
position; the model takes the response vector `responses : Nat → GraphApiResponse`
(positions 0-28).  Position 24 is `checkOrganizationSettings`, whose own
composition catches the failures of its two inner calls and always reports
success; the theorems use that fact to cover every response vector the
collector can see. -/

/-- `data.value` of a successful response (`[]` for payloads without a
`value` array). -/
def dataValue (r : GraphApiResponse) : List String :=
  (r.data.getD {}).value

/-- `checkOrganizationSettings`: combines the mobile-defense and
secure-score-profile payloads of its two inner calls, substituting empty
lists for failures, and always reports success (its catch handler is
unreachable because `callGraphApi` never throws). -/
def checkOrganizationSettings (mdmResponse securityResponse : GraphApiResponse) :
    GraphApiResponse :=
  { success := true
  , data := some
      { value := (if mdmResponse.success then dataValue mdmResponse else [])
          ++ (if securityResponse.success then dataValue securityResponse else []) } }

/-- The `endpointMap` of `fetchMicrosoftGraphData`: response positions
attributed to each logical endpoint (position 24 has no entry). -/
def endpointMapList : List (String × List Nat) :=
  [("users", [0, 2, 3]),
   ("organization", [1]),
   ("groups", [4]),
   ("users/passwordPolicies", [5]),
   ("identityProtection/riskyUsers", [6]),
   ("users/mailFolders/messageRules", [7]),
   ("directoryRoles", [8]),
   ("users/guestUsers", [9]),
   ("users/mailboxSettings", [10]),
   ("deviceManagement/mobileThreatDefenseConnectors", [11]),
   ("identity/conditionalAccess/policies", [12]),
   ("subscribedSkus", [13]),
   ("policies/identitySecurityDefaultsEnforcementPolicy", [14]),
   ("identity/authenticationStrengthPolicies", [15]),
   ("identity/conditionalAccess/namedLocations", [16]),
   ("policies/authenticationMethodsPolicy", [17, 18]),
   ("administrativeUnits", [19]),
   ("roleManagement/directory/roleSettings", [20]),
   ("admin/sharepoint/settings", [21]),
   ("security/dataLossPreventionPolicies", [22]),
   ("security/informationProtection/policy/labels", [23]),
   ("security/threatIntelligence/antiphishPolicies", [25]),
   ("deviceManagement/deviceCompliancePolicies", [26]),
   ("admin/exchange/transportRules", [27]),
   ("domains", [28])]

/-- The nested `forEach` that records the failed calls, in map order. -/
def collectApiErrors (responses : Nat → GraphApiResponse) : List String :=
  (endpointMapList.map (fun p =>
    (p.2.filter (fun i => !(responses i).success)).map
      (fun _ => "graph.microsoft.com/beta/" ++ p.1))).flatten

/-- The flat result bag returned by the collector, one field per logical
dataset, each either the parsed payload or its empty default. -/
structure GraphResultBag where
  success : Bool
  apiErrors : List String
  users : List String
  tenantInfo : Option String
  inactiveUsers : List String
  mfaStatus : List String
  groups : List String
  passwordNeverExpires : List String
  riskyUsers : List String
  emailForwarding : List String
  privilegedRoles : List String
  guestUsers : List String
  sharedMailboxes : List String
  deviceCompliance : List String
  conditionalAccess : List String
  unusedLicenses : List String
  securityDefaults : Option GraphPayload
  authStrengthPolicies : Option GraphPayload
  namedLocations : List String
  legacyAuthStatus : Option GraphPayload
  passwordResetPolicy : Option GraphPayload
  administrativeUnits : List String
  pimConfiguration : Option GraphPayload
  sharePointSharing : Option GraphPayload
  dlpPolicies : List String
  retentionPolicies : List String
  organizationSettings : Option GraphPayload
  defenderForOffice : Option GraphPayload
  intuneCompliancePolicies : List String
  exchangeTransportRules : List String
  emailAuthentication : Option GraphPayload

/-- One `success ? response.data.value : []` ternary of the result bag. -/
def valueOrDefault (responses : Nat → GraphApiResponse) (k : Nat) : List String :=
  if (responses k).success then dataValue (responses k) else []

/-- One `success ? response.data : null` ternary of the result bag. -/
def dataOrDefault (responses : Nat → GraphApiResponse) (k : Nat) : Option GraphPayload :=
  if (responses k).success then (responses k).data else none

/-- `fetchMicrosoftGraphData` on the settled response vector. -/
def fetchMicrosoftGraphData (responses : Nat → GraphApiResponse) : GraphResultBag :=
  { success := (List.range 29).any (fun i => (responses i).success)
  , apiErrors := collectApiErrors responses
  , users := valueOrDefault responses 0
  , tenantInfo := if (responses 1).success then (dataValue (responses 1)).head? else none
  , inactiveUsers := valueOrDefault responses 2
  , mfaStatus := valueOrDefault responses 3
  , groups := valueOrDefault responses 4
  , passwordNeverExpires := valueOrDefault responses 5
  , riskyUsers := valueOrDefault responses 6
  , emailForwarding := valueOrDefault responses 7
  , privilegedRoles := valueOrDefault responses 8
  , guestUsers := valueOrDefault responses 9
  , sharedMailboxes := valueOrDefault responses 10
  , deviceCompliance := valueOrDefault responses 11
  , conditionalAccess := valueOrDefault responses 12
  , unusedLicenses := valueOrDefault responses 13
  , securityDefaults := dataOrDefault responses 14
  , authStrengthPolicies := dataOrDefault responses 15
  , namedLocations := valueOrDefault responses 16
  , legacyAuthStatus := dataOrDefault responses 17
  , passwordResetPolicy := dataOrDefault responses 18
  , administrativeUnits := valueOrDefault responses 19
  , pimConfiguration := dataOrDefault responses 20
  , sharePointSharing := dataOrDefault responses 21
  , dlpPolicies := valueOrDefault responses 22
  , retentionPolicies := valueOrDefault responses 23
  , organizationSettings := dataOrDefault responses 24
  , defenderForOffice := dataOrDefault responses 25
  , intuneCompliancePolicies := valueOrDefault responses 26
  , exchangeTransportRules := valueOrDefault responses 27
  , emailAuthentication := dataOrDefault responses 28 }

/-! ## The scan-results page indicators (`hasApiError`) -/

/-- The `hasApiError` matcher of the scan-results page: some recorded
error contains one of the row's keys (raw, or under a beta/v1.0 url),
case-insensitively. -/
def hasApiError (apiErrors : List String) (errorKeys : List String) : Bool :=
  errorKeys.any (fun key =>
    apiErrors.any (fun e =>
      strIncludes (strLower e) (strLower key)
        || strIncludes (strLower e) ("graph.microsoft.com/beta/" ++ strLower key)
        || strIncludes (strLower e) ("graph.microsoft.com/v1.0/" ++ strLower key)))

/-- The three indicator rows of the "Security Posture" panel, each guarded
by `hasApiError` on its key list: Microsoft Secure Score, Compliance
Score, Defender Exposure Score. -/
def securityPostureIndicatorKeys : List (List String) :=
  [["security/secureScores", "security/secureScoreControlProfiles"],
   ["security/complianceScores", "security/complianceProfiles"],
   ["security/secureScores/defender", "security/alerts"]]

/-! # Theorems -/

/-! ## Risk score (claims on `generateScan` scoring) -/

/-- The source's `Math.max(Math.min(100 - impacts, 100), 0)` agrees with the
spec's `clamp(100 - 15h - 7m - 3l, 0, 100)` also when no issue exists. -/
lemma computeRiskScore_eq_clamp (h m l : Nat) :
    computeRiskScore h m l
      = max 0 (min (100 - 15 * (h : Int) - 7 * (m : Int) - 3 * (l : Int)) 100) := by
  simp only [computeRiskScore]
  split_ifs with hc
  · omega
  · omega

lemma computeRiskScore_antitone {h h' m m' l l' : Nat}
    (hh : h ≤ h') (hm : m ≤ m') (hl : l ≤ l') :
    computeRiskScore h' m' l' ≤ computeRiskScore h m l := by
  simp only [computeRiskScore]
  split_ifs <;> omega

/-- **C1.** For every generated scan, the summary's `overallRiskScore`
equals `clamp(100 - 15*highCount - 7*mediumCount - 3*lowCount, 0, 100)`,
where the counts are taken over that scan's issue list. -/
theorem generateScan_overallRiskScore_clamp (now : Nat) (tenantId : String)
    (tenantName : Option String) (realData : Option RealData) :
    (generateScan now tenantId tenantName realData).summary.overallRiskScore
      = some (max 0 (min (100
          - 15 * (countSeverity .High (generateScan now tenantId tenantName realData).issues : Int)
          - 7 * (countSeverity .Medium (generateScan now tenantId tenantName realData).issues : Int)
          - 3 * (countSeverity .Low (generateScan now tenantId tenantName realData).issues : Int)) 100)) := by
  simp only [generateScan, severityCountsOf]
  rw [computeRiskScore_eq_clamp]

/-- The whole-scan risk score as a function of the issue list: exactly the
severity-count filters and weighted clamp of `generateScan`. -/
def scanRiskScore (issues : List SecurityIssue) : Int :=
  computeRiskScore (countSeverity .High issues) (countSeverity .Medium issues)
    (countSeverity .Low issues)

lemma countSeverity_append (s : Severity) (l₁ l₂ : List SecurityIssue) :
    countSeverity s (l₁ ++ l₂) = countSeverity s l₁ + countSeverity s l₂ := by
  simp [countSeverity, List.filter_append]

/-- **C2.** For all issue sets the computed `overallRiskScore` lies within
`[0, 100]`, and adding one more issue of any severity never increases the
score. -/
theorem scanRiskScore_bounded_antitone (issues : List SecurityIssue) (i : SecurityIssue) :
    (0 ≤ scanRiskScore issues ∧ scanRiskScore issues ≤ 100)
      ∧ scanRiskScore (issues ++ [i]) ≤ scanRiskScore issues := by
  refine ⟨⟨?_, ?_⟩, ?_⟩
  · simp only [scanRiskScore, computeRiskScore]
    split_ifs <;> omega
  · simp only [scanRiskScore, computeRiskScore]
    split_ifs <;> omega
  · simp only [scanRiskScore, countSeverity_append]
    exact computeRiskScore_antitone
      (Nat.le_add_right _ _) (Nat.le_add_right _ _) (Nat.le_add_right _ _)

/-! ## Storage helpers -/

lemma getItem_setItem_same {α : Type} (st : List (String × α)) (k : String) (v : α) :
    getItem (setItem st k v) k = some v := by
  simp [getItem, setItem]

/-! ## Scan history (claim C8) -/

/-- **C8.** After every completed scan the persisted tenant-scoped history
holds `[newSummary, ...old].slice(0, 10)`: at most 10 records, the new
scan's summary first, and the retained older entries are the first nine of
the previous history (the rest are trimmed from the end). -/
theorem startScan_history_bounded (histories : List (String × List ScanSummary))
    (blobs : List (String × ScanData)) (tenantId : String)
    (scanHistory : List ScanSummary) (scanData : ScanData) :
    getItem (startScanPersist histories blobs tenantId scanHistory scanData).1
        ("scanHistory_" ++ tenantId)
      = some (updatedScanHistory scanData.summary scanHistory)
    ∧ (updatedScanHistory scanData.summary scanHistory).length ≤ 10
    ∧ updatedScanHistory scanData.summary scanHistory
        = scanData.summary :: scanHistory.take 9 := by
  refine ⟨getItem_setItem_same .., ?_, ?_⟩
  · simp only [updatedScanHistory, List.length_take]
    omega
  · rfl

/-! ## `callGraphApi` (claim C10) -/

/-- **C10.** `callGraphApi` is total and never throws: it returns a
response with a success flag for every input.  An empty access token gives
`success = false` with status 401 and no network request; a rejected fetch
gives `success = false` with status 500; a non-2xx response whose error
body parses gives `success = false` with that response's status code; and
a JSON-parse failure — on the error body of a non-2xx response or on the
body of a 2xx response that is actually read — is converted into
`success = false` with status 500. -/
theorem callGraphApi_spec (endpoint accessToken method : String)
    (body : Option String) (net : NetOutcome) :
    (accessToken = "" →
      callGraphApi endpoint accessToken method body net
        = ⟨{ success := false
           , error := some "No access token provided"
           , statusCode := some 401 }, false⟩)
    ∧ (accessToken ≠ "" → ∀ msg, net = .netFail msg →
        (callGraphApi endpoint accessToken method body net).response.success = false
        ∧ (callGraphApi endpoint accessToken method body net).response.statusCode = some 500
        ∧ (callGraphApi endpoint accessToken method body net).networkUsed = true)
    ∧ (accessToken ≠ "" → ∀ status d, net = .http status (some d) → httpOk status = false →
        (callGraphApi endpoint accessToken method body net).response.success = false
        ∧ (callGraphApi endpoint accessToken method body net).response.statusCode = some status)
    ∧ (accessToken ≠ "" → ∀ status, net = .http status none → httpOk status = false →
        (callGraphApi endpoint accessToken method body net).response.success = false
        ∧ (callGraphApi endpoint accessToken method body net).response.statusCode = some 500)
    ∧ (accessToken ≠ "" → ∀ status, net = .http status none → httpOk status = true →
        status ≠ 204 → method ≠ "DELETE" →
        (callGraphApi endpoint accessToken method body net).response.success = false
        ∧ (callGraphApi endpoint accessToken method body net).response.statusCode = some 500) := by
  refine ⟨?_, ?_, ?_, ?_, ?_⟩
  · intro h
    simp [callGraphApi, h]
  · rintro h msg rfl
    simp [callGraphApi, h]
  · rintro h status d rfl hs
    simp [callGraphApi, h, hs]
  · rintro h status rfl hs
    simp [callGraphApi, h, hs]
  · rintro h status rfl hs h204 hdel
    simp [callGraphApi, h, hs, h204, hdel]

/-- Closed instance of `callGraphApi_spec`: the empty-token guard at a
concrete call. -/
theorem callGraphApi_spec_witness :
    callGraphApi "/users" "" "GET" none (.netFail none)
      = ⟨{ success := false
         , error := some "No access token provided"
         , statusCode := some 401 }, false⟩ :=
  (callGraphApi_spec "/users" "" "GET" none (.netFail none)).1 rfl

/-! ## Dashboard category scores (claim C7) -/

/-- **C7.** For every scan whose persisted issue list is empty (or whose
blob is missing), each of the five per-category dashboard scores computed
by `convertToLatestScanData` equals 100. -/
theorem convertToLatestScanData_empty_scores (blobs : List (String × ScanData))
    (summary : ScanSummary) (h : storedIssues blobs summary.id = []) :
    (convertToLatestScanData blobs summary).securityPostureScore = 100
    ∧ (convertToLatestScanData blobs summary).identityAccessScore = 100
    ∧ (convertToLatestScanData blobs summary).deviceAppScore = 100
    ∧ (convertToLatestScanData blobs summary).dataProtectionScore = 100
    ∧ (convertToLatestScanData blobs summary).licenseManagementScore = 100 := by
  simp only [convertToLatestScanData, h, List.foldl_nil]
  refine ⟨?_, ?_, ?_, ?_, ?_⟩ <;> decide

/-- Closed instance of `convertToLatestScanData_empty_scores`: empty
storage, so the blob is missing and the issue list is empty. -/
theorem convertToLatestScanData_empty_scores_witness :
    storedIssues [] "s1" = []
    ∧ (convertToLatestScanData [] { id := "s1", timestamp := "t" }).securityPostureScore = 100 :=
  ⟨rfl, (convertToLatestScanData_empty_scores [] { id := "s1", timestamp := "t" } rfl).1⟩

/-! ## Persistence round trip (claim C4) -/

lemma mem_generateScanIssues_isSome (now : Nat) (tenantName : Option String)
    (rd : RealData) :
    ∀ i ∈ generateScanIssues now tenantName rd, i.affectedObject.isSome := by
  intro i hi
  simp only [generateScanIssues, List.mem_append] at hi
  rcases hi with ((((h | h) | h) | h) | h) | h
  · simp only [riskyUsersIssues] at h
    split at h <;> simp_all
  · simp only [mfaIssues] at h
    split at h
    · split at h <;> simp_all
    · simp_all
  · simp only [inactiveIssues] at h
    split at h <;> simp_all
  · simp only [forwardingIssues] at h
    split at h
    · split at h <;> simp_all
    · simp_all
  · simp only [apiErrorIssues] at h
    split at h
    · obtain ⟨b, _, rfl⟩ := List.mem_map.mp h
      rfl
    · simp_all
  · simp only [guestIssues] at h
    split at h <;> simp_all

/-- **C4.** Round trip: the `ScanData` persisted by `startScan` under its
scan id parses back through the storage read path of `getScanById` into an
equivalent object — the same number of issues and the same per-severity
counts as the object that was written. -/
theorem startScan_roundTrip (now : Nat) (tenantId : String)
    (tenantName : Option String) (realData : Option RealData)
    (histories : List (String × List ScanSummary))
    (blobs : List (String × ScanData)) (scanHistory : List ScanSummary) :
    getItem (startScanPersist histories blobs tenantId scanHistory
          (generateScan now tenantId tenantName realData)).2
        ("scan_" ++ (generateScan now tenantId tenantName realData).summary.id)
      = some (generateScan now tenantId tenantName realData)
    ∧ ∃ v, readScanView (generateScan now tenantId tenantName realData) = .ok v
        ∧ v.issues.length = (generateScan now tenantId tenantName realData).issues.length
        ∧ (v.issues.filter (fun i => i.severity = .High)).length
            = countSeverity .High (generateScan now tenantId tenantName realData).issues
        ∧ (v.issues.filter (fun i => i.severity = .Medium)).length
            = countSeverity .Medium (generateScan now tenantId tenantName realData).issues
        ∧ (v.issues.filter (fun i => i.severity = .Low)).length
            = countSeverity .Low (generateScan now tenantId tenantName realData).issues := by
  constructor
  · exact getItem_setItem_same ..
  · have hall : ((generateScan now tenantId tenantName realData).issues.all
        (fun i => i.affectedObject.isSome)) = true := by
      rw [List.all_eq_true]
      intro i hi
      cases realData with
      | none => simp [generateScan] at hi
      | some rd =>
        have : i ∈ generateScanIssues now tenantName rd := by
          simpa [generateScan] using hi
        exact mem_generateScanIssues_isSome now tenantName rd i this
    have hcounts : (generateScan now tenantId tenantName realData).summary.issueCountsBySeverity
        = some (severityCountsOf (generateScan now tenantId tenantName realData).issues) := by
      simp [generateScan]
    refine ⟨mkScanView (generateScan now tenantId tenantName realData)
        (severityCountsOf (generateScan now tenantId tenantName realData).issues), ?_, ?_, ?_, ?_, ?_⟩
    · simp only [readScanView, hcounts, hall, if_true]
    · simp [mkScanView]
    all_goals
      simp only [mkScanView, countSeverity, ← List.countP_eq_length_filter,
        List.countP_map]
      rfl

/-! ## `fixIssue` idempotency (claim C3) -/

lemma jsOr_status_fixed (o : Option String) :
    (jsOr o "Open" = "Fixed") ↔ (o = some "Fixed") := by
  cases o with
  | none => decide
  | some s =>
    simp only [jsOr]
    split_ifs with h
    · subst h
      decide
    · simp

lemma fixIssue_count_eq (b : ScanData) (counts : SeverityCounts) (issueId : String)
    (hfixed : ∀ i ∈ b.issues, i.id = issueId → i.status = some "Fixed") :
    reportedIssuesFixed
      { summary := summaryOfView (mkScanView b counts)
      , issues := ((mkScanView b counts).issues.map
          (fun i => if i.id = issueId then { i with status := "Fixed" } else i)).map issueOfView }
      = reportedIssuesFixed b := by
  simp only [reportedIssuesFixed, ← List.countP_eq_length_filter, List.countP_map, mkScanView]
  apply List.countP_congr
  intro i hi
  simp only [Function.comp_apply, decide_eq_true_eq]
  by_cases hid : (viewOfIssue i).id = issueId
  · have hfix : i.status = some "Fixed" := hfixed i hi (by simpa [viewOfIssue] using hid)
    simp [hid, issueOfView, viewOfIssue, jsOr, hfix]
  · rw [if_neg hid]
    simp only [issueOfView, Option.some.injEq, viewOfIssue]
    exact jsOr_status_fixed i.status

/-- **C3.** Fixing an issue is idempotent-safe: for every persisted scan
and every issue id whose issue(s) already have status `"Fixed"`, running
`fixIssue` leaves the `issuesFixed` count reported by the storage read
path of `getScanById` unchanged — the fix is not double-counted. -/
theorem fixIssue_fixed_not_double_counted (blobs : List (String × ScanData))
    (scanId issueId : String) (b : ScanData)
    (hb : getItem blobs ("scan_" ++ scanId) = some b)
    (hfixed : ∀ i ∈ b.issues, i.id = issueId → i.status = some "Fixed") :
    (getItem (fixIssue blobs scanId issueId) ("scan_" ++ scanId)).map reportedIssuesFixed
      = some (reportedIssuesFixed b) := by
  simp only [fixIssue, getScanByIdFromStorage, hb]
  cases hcs : b.summary.issueCountsBySeverity with
  | none =>
    have hrv : readScanView b = .error "TypeError: issueCountsBySeverity is undefined" := by
      rw [readScanView, hcs]
    simp [hrv, Except.map, hb]
  | some counts =>
    by_cases hall : (b.issues.all fun i => i.affectedObject.isSome) = true
    · have hrv : readScanView b = .ok (mkScanView b counts) := by
        rw [readScanView, hcs]
        simp [hall]
      simp only [hrv, Except.map]
      cases hf : (mkScanView b counts).issues.find? (fun i => i.id = issueId) with
      | none => simp [hb]
      | some found =>
        rw [getItem_setItem_same]
        exact congrArg some (fixIssue_count_eq b counts issueId hfixed)
    · have hrv : readScanView b = .error "TypeError: affectedObject is undefined" := by
        rw [readScanView, hcs]
        simp [hall]
      simp [hrv, Except.map, hb]

/-- A persisted blob whose single issue is already `"Fixed"`. -/
def fixedSummaryEx : ScanSummary :=
  { id := "s1", timestamp := "t", overallRiskScore := some 97,
    issueCountsBySeverity := some ⟨0, 0, 1⟩ }

def fixedIssueEx : SecurityIssue :=
  { id := "i1", type := some "Guest User Access", severity := .Low,
    affectedObject := some ⟨"User", "multiple", "Multiple Guest Users"⟩,
    status := some "Fixed" }

def fixedBlobEx : ScanData :=
  { summary := fixedSummaryEx, issues := [fixedIssueEx],
    apiErrors := some [], usesRealData := some true }

/-- Closed instance of `fixIssue_fixed_not_double_counted` at a concrete
store whose issue is already fixed. -/
theorem fixIssue_fixed_not_double_counted_witness :
    getItem [("scan_s1", fixedBlobEx)] ("scan_" ++ "s1") = some fixedBlobEx
    ∧ (∀ i ∈ fixedBlobEx.issues, i.id = "i1" → i.status = some "Fixed")
    ∧ (getItem (fixIssue [("scan_s1", fixedBlobEx)] "s1" "i1")
          ("scan_" ++ "s1")).map reportedIssuesFixed
        = some (reportedIssuesFixed fixedBlobEx) :=
  ⟨by decide, by decide,
   fixIssue_fixed_not_double_counted [("scan_s1", fixedBlobEx)] "s1" "i1" fixedBlobEx
     (by decide) (by decide)⟩

/-! ## Grouping of failed api endpoints (`errorsByType`) -/

lemma classifyError_mem_five (e : String) :
    classifyError e ∈ ["Identity Protection", "Mail Settings", "Security Settings",
      "License Management", "API Access"] := by
  simp only [classifyError]
  split_ifs <;> simp

lemma addToBucket_keys (acc : List (String × List String)) (k v : String) :
    (addToBucket acc k v).map (fun p => p.1)
      = if acc.any (fun p => p.1 = k) then acc.map (fun p => p.1)
        else acc.map (fun p => p.1) ++ [k] := by
  simp only [addToBucket]
  split_ifs with h
  · rw [List.map_map]
    apply List.map_congr_left
    intro p _
    by_cases hp : p.1 = k <;> simp [hp]
  · simp

lemma foldl_buckets_keys_mono (errs : List String) :
    ∀ (acc : List (String × List String)) (K : String),
      K ∈ acc.map (fun p => p.1) →
      K ∈ (errs.foldl (fun a e => addToBucket a (classifyError e) e) acc).map (fun p => p.1) := by
  induction errs with
  | nil => intro acc K h; simpa using h
  | cons e t ih =>
    intro acc K h
    apply ih
    rw [addToBucket_keys]
    split_ifs with hc
    · exact h
    · exact List.mem_append.mpr (Or.inl h)

lemma mem_keys_foldl_buckets (errs : List String) :
    ∀ (acc : List (String × List String)) (e : String), e ∈ errs →
      classifyError e
        ∈ (errs.foldl (fun a x => addToBucket a (classifyError x) x) acc).map (fun p => p.1) := by
  induction errs with
  | nil => intro acc e he; cases he
  | cons a t ih =>
    intro acc e he
    rcases List.mem_cons.mp he with rfl | he
    · rw [List.foldl_cons]
      apply foldl_buckets_keys_mono
      rw [addToBucket_keys]
      split_ifs with hc
      · obtain ⟨p, hp, hpk⟩ := List.any_eq_true.mp hc
        have : p.1 = classifyError e := by simpa using hpk
        exact this ▸ List.mem_map_of_mem _ hp
      · exact List.mem_append.mpr (Or.inr (by simp))
    · exact ih _ e he

lemma keys_nodup_foldl_buckets (errs : List String) :
    ∀ (acc : List (String × List String)),
      ((acc.map (fun p => p.1)).Nodup) →
      (((errs.foldl (fun a x => addToBucket a (classifyError x) x) acc).map (fun p => p.1)).Nodup) := by
  induction errs with
  | nil => intro acc h; simpa using h
  | cons a t ih =>
    intro acc h
    apply ih
    rw [addToBucket_keys]
    split_ifs with hc
    · exact h
    · have hnot : classifyError a ∉ acc.map (fun p => p.1) := by
        intro hmem
        obtain ⟨p, hp, hpk⟩ := List.mem_map.mp hmem
        exact hc (List.any_eq_true.mpr ⟨p, hp, by simp [hpk]⟩)
      simp [List.nodup_append, h, hnot]

lemma bucket_key_of_mem_foldl (errs : List String) :
    ∀ (acc : List (String × List String)) (b : String × List String),
      b ∈ errs.foldl (fun a x => addToBucket a (classifyError x) x) acc →
      b.1 ∈ acc.map (fun p => p.1) ∨ ∃ e ∈ errs, classifyError e = b.1 := by
  induction errs with
  | nil =>
    intro acc b h
    exact Or.inl (List.mem_map_of_mem _ h)
  | cons a t ih =>
    intro acc b h
    rcases ih _ b h with hk | ⟨e, he, hce⟩
    · rw [addToBucket_keys] at hk
      split_ifs at hk with hc
      · exact Or.inl hk
      · rcases List.mem_append.mp hk with h1 | h2
        · exact Or.inl h1
        · exact Or.inr ⟨a, List.mem_cons_self ..,
            (show b.1 = classifyError a by simpa using h2).symm⟩
    · exact Or.inr ⟨e, List.mem_cons_of_mem _ he, hce⟩

lemma errorsByType_keys_nodup (errs : List String) :
    (((errorsByType errs).map (fun p => p.1)).Nodup) :=
  keys_nodup_foldl_buckets errs [] (by simp)

lemma errorsByType_key_of_mem (errs : List String) (b : String × List String)
    (h : b ∈ errorsByType errs) : ∃ e ∈ errs, classifyError e = b.1 := by
  have := bucket_key_of_mem_foldl errs [] b h
  simpa using this

lemma classify_mem_errorsByType_keys (errs : List String) (e : String) (h : e ∈ errs) :
    classifyError e ∈ (errorsByType errs).map (fun p => p.1) :=
  mem_keys_foldl_buckets errs [] e h

/-! ## External email forwarding (claim C6) -/

lemma apiErrorIssues_no_forwarding_type (now : Nat) (rd : RealData) :
    (apiErrorIssues now rd).filter
        (fun i => i.type = some "External Email Forwarding") = [] := by
  rw [apiErrorIssues]
  split
  · rw [List.filter_eq_nil_iff]
    intro i hi
    obtain ⟨b, hb, rfl⟩ := List.mem_map.mp hi
    obtain ⟨e, _, hce⟩ := errorsByType_key_of_mem _ _ hb
    have h5 := hce ▸ classifyError_mem_five e
    simp only [List.mem_cons, List.not_mem_nil, or_false] at h5
    rcases h5 with h | h | h | h | h <;>
      simp [mkApiErrorIssue, h]
  · rfl

/-- **C6.** On a scan input with a non-empty email-forwarding dataset, the
normalizer emits exactly one "External Email Forwarding" issue of severity
Medium precisely when at least one forwarding rule passes the external
test of the source (`forwardTo` present and not ending with the tenant
name), with `affectedItems` listing the affected mailboxes; with no such
rule it emits none. -/
theorem generateScan_externalForwarding (now : Nat) (tenantId : String)
    (tenantName : Option String) (rd : RealData)
    (hne : rd.emailForwarding ≠ []) :
    ((generateScan now tenantId tenantName (some rd)).issues.filter
        (fun i => i.type = some "External Email Forwarding"))
      = forwardingIssues now tenantName rd
    ∧ (rd.emailForwarding.filter (isExternalRule tenantName) ≠ [] →
        ∃ iss, forwardingIssues now tenantName rd = [iss]
          ∧ iss.severity = .Medium
          ∧ iss.type = some "External Email Forwarding"
          ∧ iss.affectedItems
              = some ((rd.emailForwarding.filter (isExternalRule tenantName)).map
                  (fun r => jsOr r.mailbox "Unknown Mailbox")))
    ∧ (rd.emailForwarding.filter (isExternalRule tenantName) = [] →
        forwardingIssues now tenantName rd = []) := by
  refine ⟨?_, ?_, ?_⟩
  · have hA : (riskyUsersIssues now rd).filter
        (fun i => i.type = some "External Email Forwarding") = [] := by
      rw [riskyUsersIssues]; split <;> rfl
    have hB : (mfaIssues now rd).filter
        (fun i => i.type = some "External Email Forwarding") = [] := by
      simp only [mfaIssues]
      split
      · split <;> rfl
      · rfl
    have hC : (inactiveIssues now rd).filter
        (fun i => i.type = some "External Email Forwarding") = [] := by
      rw [inactiveIssues]; split <;> rfl
    have hD : (forwardingIssues now tenantName rd).filter
        (fun i => i.type = some "External Email Forwarding")
        = forwardingIssues now tenantName rd := by
      simp only [forwardingIssues]
      by_cases h1 : rd.emailForwarding ≠ []
      · by_cases h2 : List.filter (isExternalRule tenantName) rd.emailForwarding ≠ []
        · simp only [if_pos h1, if_pos h2]
          rfl
        · simp only [if_pos h1, if_neg h2]
          rfl
      · simp only [if_neg h1]
        rfl
    have hF : (guestIssues now rd).filter
        (fun i => i.type = some "External Email Forwarding") = [] := by
      rw [guestIssues]; split <;> rfl
    simp only [generateScan, generateScanIssues, List.filter_append, hA, hB, hC, hD,
      apiErrorIssues_no_forwarding_type, hF, List.nil_append, List.append_nil]
  · intro hext
    simp only [forwardingIssues]
    rw [if_pos hne, if_pos hext]
    exact ⟨_, rfl, rfl, rfl, rfl⟩
  · intro hext
    simp only [forwardingIssues]
    rw [if_pos hne, if_neg (by simp [hext])]

/-- Closed instance of `generateScan_externalForwarding`: one rule
forwarding outside the tenant name. -/
theorem generateScan_externalForwarding_witness :
    ({ emailForwarding := [{ forwardTo := some "evil@other.com", mailbox := some "m1@contoso.com" }] }
        : RealData).emailForwarding ≠ []
    ∧ ((generateScan 0 "tid" (some "Contoso")
          (some { emailForwarding := [{ forwardTo := some "evil@other.com", mailbox := some "m1@contoso.com" }] })).issues.filter
            (fun i => i.type = some "External Email Forwarding"))
        = forwardingIssues 0 (some "Contoso")
            { emailForwarding := [{ forwardTo := some "evil@other.com", mailbox := some "m1@contoso.com" }] } :=
  ⟨by decide,
   (generateScan_externalForwarding 0 "tid" (some "Contoso")
     { emailForwarding := [{ forwardTo := some "evil@other.com", mailbox := some "m1@contoso.com" }] }
     (by decide)).1⟩

/-! ## Failed `security/secureScores` endpoint (claim C5) -/

/-- The api-error entry the collector would record for a failed
secure-scores endpoint. -/
def secureScoresFailedEntry : String := "graph.microsoft.com/beta/security/secureScores"

/-- A collection result whose only content is that failed entry. -/
def rdSecureScoresOnly : RealData := { apiErrors := [secureScoresFailedEntry] }

/-- **C5, counterexample.** The claim says a failed `security/secureScores`
endpoint adds no High, Medium or Low severity issue to the scan's issue
list; in fact `generateScan` classifies the entry under "Security
Settings" and emits a Medium "Security Settings Access Required" issue for
it, so the Medium filter on this scan is non-empty. -/
theorem secureScores_failure_counterexample :
    ((generateScan 0 "tenant" none (some rdSecureScoresOnly)).issues.filter
        (fun i => i.severity = Severity.Medium)) ≠ [] := by
  decide

/-- **C5, amended.** When the collection result contains a failed-endpoint
entry for `security/secureScores`, that entry lights exactly one of the
three "Security Posture" indicator rows of the results page (the Microsoft
Secure Score row), and `generateScan` additionally adds exactly one
Medium-severity "Security Settings Access Required" issue grouping the
security-classified failures. -/
theorem secureScores_failure_amended (now : Nat) (tenantId : String)
    (tenantName : Option String) (rd : RealData)
    (h : secureScoresFailedEntry ∈ rd.apiErrors) :
    securityPostureIndicatorKeys.map (hasApiError [secureScoresFailedEntry])
      = [true, false, false]
    ∧ ((generateScan now tenantId tenantName (some rd)).issues.filter
          (fun i => i.type = some "Security Settings Access Required")).map
            (fun i => i.severity)
        = [Severity.Medium] := by
  constructor
  · decide
  · have hne : rd.apiErrors ≠ [] := by
      intro he
      rw [he] at h
      cases h
    have hA : (riskyUsersIssues now rd).filter
        (fun i => i.type = some "Security Settings Access Required") = [] := by
      rw [riskyUsersIssues]; split <;> rfl
    have hB : (mfaIssues now rd).filter
        (fun i => i.type = some "Security Settings Access Required") = [] := by
      simp only [mfaIssues]
      split
      · split <;> rfl
      · rfl
    have hC : (inactiveIssues now rd).filter
        (fun i => i.type = some "Security Settings Access Required") = [] := by
      rw [inactiveIssues]; split <;> rfl
    have hD : (forwardingIssues now tenantName rd).filter
        (fun i => i.type = some "Security Settings Access Required") = [] := by
      simp only [forwardingIssues]
      by_cases h1 : rd.emailForwarding ≠ []
      · by_cases h2 : List.filter (isExternalRule tenantName) rd.emailForwarding ≠ []
        · simp only [if_pos h1, if_pos h2]
          rfl
        · simp only [if_pos h1, if_neg h2]
          rfl
      · simp only [if_neg h1]
        rfl
    have hF : (guestIssues now rd).filter
        (fun i => i.type = some "Security Settings Access Required") = [] := by
      rw [guestIssues]; split <;> rfl
    have hcount : ((errorsByType rd.apiErrors).map (mkApiErrorIssue now)).countP
        (fun i => i.type = some "Security Settings Access Required") = 1 := by
      rw [List.countP_map]
      have hq : (errorsByType rd.apiErrors).countP
            ((fun i => decide (i.type = some "Security Settings Access Required"))
              ∘ mkApiErrorIssue now)
          = (errorsByType rd.apiErrors).countP (fun b => decide (b.1 = "Security Settings")) := by
        apply List.countP_congr
        intro b hb
        obtain ⟨e, _, hce⟩ := errorsByType_key_of_mem _ _ hb
        have h5 := hce ▸ classifyError_mem_five e
        simp only [List.mem_cons, List.not_mem_nil, or_false] at h5
        rcases h5 with hk | hk | hk | hk | hk <;>
          simp [mkApiErrorIssue, hk]
      rw [hq]
      have hmap : (errorsByType rd.apiErrors).countP (fun b => decide (b.1 = "Security Settings"))
          = ((errorsByType rd.apiErrors).map (fun p => p.1)).countP
              (fun k => decide (k = "Security Settings")) := by
        rw [List.countP_map]
        rfl
      rw [hmap]
      have hbeq : ((errorsByType rd.apiErrors).map (fun p => p.1)).countP
            (fun k => decide (k = "Security Settings"))
          = ((errorsByType rd.apiErrors).map (fun p => p.1)).count "Security Settings" := by
        rw [List.count_eq_countP]
        apply List.countP_congr
        intro k _
        simp
      rw [hbeq]
      have hmem : "Security Settings" ∈ (errorsByType rd.apiErrors).map (fun p => p.1) := by
        have hclass : classifyError secureScoresFailedEntry = "Security Settings" := by decide
        have := classify_mem_errorsByType_keys rd.apiErrors secureScoresFailedEntry h
        rwa [hclass] at this
      exact List.count_eq_one_of_mem (errorsByType_keys_nodup rd.apiErrors) hmem
    have hE : (((apiErrorIssues now rd).filter
          (fun i => i.type = some "Security Settings Access Required")).map
            (fun i => i.severity)) = [Severity.Medium] := by
      rw [apiErrorIssues, if_pos hne,
        show [Severity.Medium] = List.replicate 1 Severity.Medium from rfl,
        List.eq_replicate_iff]
      constructor
      · rw [List.length_map, ← List.countP_eq_length_filter]
        exact hcount
      · intro s hs
        obtain ⟨i, hi, rfl⟩ := List.mem_map.mp hs
        have hi' := (List.mem_filter.mp hi).1
        obtain ⟨b, _, rfl⟩ := List.mem_map.mp hi'
        rfl
    simp only [generateScan, generateScanIssues, List.filter_append, hA, hB, hC, hD, hF,
      List.nil_append, List.append_nil]
    exact hE

/-- Closed instance of `secureScores_failure_amended` at the
one-failed-entry collection result. -/
theorem secureScores_failure_amended_witness :
    secureScoresFailedEntry ∈ rdSecureScoresOnly.apiErrors
    ∧ ((generateScan 0 "tenant" none (some rdSecureScoresOnly)).issues.filter
          (fun i => i.type = some "Security Settings Access Required")).map
            (fun i => i.severity)
        = [Severity.Medium] :=
  ⟨by decide,
   (secureScores_failure_amended 0 "tenant" none rdSecureScoresOnly (by decide)).2⟩

/-! ## The parallel collector (claim C9) -/

/-- The settled response vector of the `Promise.all` batch: position 24 is
the `checkOrganizationSettings` composite built from its two inner call
results, every other position is the settled result of the corresponding
check function.  (Each check function catches its own exceptions, so the
joined batch always resolves; the model being a total function reflects
that.) -/
def batchResponses (r : Nat → GraphApiResponse)
    (mdmResponse securityResponse : GraphApiResponse) : Nat → GraphApiResponse :=
  fun j => if j = 24 then checkOrganizationSettings mdmResponse securityResponse else r j

lemma cover_endpointMap : ∀ i, i < 29 → i ≠ 24 → ∃ p ∈ endpointMapList, i ∈ p.2 := by
  decide

lemma mem_collectApiErrors (responses : Nat → GraphApiResponse)
    (p : String × List Nat) (hp : p ∈ endpointMapList) (i : Nat) (hip : i ∈ p.2)
    (hfail : (responses i).success = false) :
    ("graph.microsoft.com/beta/" ++ p.1) ∈ collectApiErrors responses := by
  rw [collectApiErrors]
  apply List.mem_flatten.mpr
  refine ⟨_, List.mem_map_of_mem _ hp, ?_⟩
  exact List.mem_map.mpr ⟨i, List.mem_filter.mpr ⟨hip, by simp [hfail]⟩, rfl⟩

/-- **C9.** The parallel collector always resolves (the model is a total
function of the settled response vector), the endpoint name of every
failed call is recorded in `apiErrors` (position 24, the only unmapped
position, is the organization-settings composite, which never fails), and
every failed dataset is replaced by its empty default (empty array or
null) in the result bag. -/
theorem fetchMicrosoftGraphData_partial_failure (r : Nat → GraphApiResponse)
    (mdmResponse securityResponse : GraphApiResponse) :
    (∀ i, i < 29 →
      (batchResponses r mdmResponse securityResponse i).success = false →
      ∃ p ∈ endpointMapList, i ∈ p.2
        ∧ ("graph.microsoft.com/beta/" ++ p.1)
            ∈ (fetchMicrosoftGraphData (batchResponses r mdmResponse securityResponse)).apiErrors)
    ∧ ((batchResponses r mdmResponse securityResponse 0).success = false →
        (fetchMicrosoftGraphData (batchResponses r mdmResponse securityResponse)).users = [])
    ∧ ((batchResponses r mdmResponse securityResponse 1).success = false →
        (fetchMicrosoftGraphData (batchResponses r mdmResponse securityResponse)).tenantInfo = none)
    ∧ ((batchResponses r mdmResponse securityResponse 2).success = false →
        (fetchMicrosoftGraphData (batchResponses r mdmResponse securityResponse)).inactiveUsers = [])
    ∧ ((batchResponses r mdmResponse securityResponse 3).success = false →
        (fetchMicrosoftGraphData (batchResponses r mdmResponse securityResponse)).mfaStatus = [])
    ∧ ((batchResponses r mdmResponse securityResponse 4).success = false →
        (fetchMicrosoftGraphData (batchResponses r mdmResponse securityResponse)).groups = [])
    ∧ ((batchResponses r mdmResponse securityResponse 5).success = false →
        (fetchMicrosoftGraphData (batchResponses r mdmResponse securityResponse)).passwordNeverExpires = [])
    ∧ ((batchResponses r mdmResponse securityResponse 6).success = false →
        (fetchMicrosoftGraphData (batchResponses r mdmResponse securityResponse)).riskyUsers = [])
    ∧ ((batchResponses r mdmResponse securityResponse 7).success = false →
        (fetchMicrosoftGraphData (batchResponses r mdmResponse securityResponse)).emailForwarding = [])
    ∧ ((batchResponses r mdmResponse securityResponse 8).success = false →
        (fetchMicrosoftGraphData (batchResponses r mdmResponse securityResponse)).privilegedRoles = [])
    ∧ ((batchResponses r mdmResponse securityResponse 9).success = false →
        (fetchMicrosoftGraphData (batchResponses r mdmResponse securityResponse)).guestUsers = [])
    ∧ ((batchResponses r mdmResponse securityResponse 10).success = false →
        (fetchMicrosoftGraphData (batchResponses r mdmResponse securityResponse)).sharedMailboxes = [])
    ∧ ((batchResponses r mdmResponse securityResponse 11).success = false →
        (fetchMicrosoftGraphData (batchResponses r mdmResponse securityResponse)).deviceCompliance = [])
    ∧ ((batchResponses r mdmResponse securityResponse 12).success = false →
        (fetchMicrosoftGraphData (batchResponses r mdmResponse securityResponse)).conditionalAccess = [])
    ∧ ((batchResponses r mdmResponse securityResponse 13).success = false →
        (fetchMicrosoftGraphData (batchResponses r mdmResponse securityResponse)).unusedLicenses = [])
    ∧ ((batchResponses r mdmResponse securityResponse 14).success = false →
        (fetchMicrosoftGraphData (batchResponses r mdmResponse securityResponse)).securityDefaults = none)
    ∧ ((batchResponses r mdmResponse securityResponse 15).success = false →
        (fetchMicrosoftGraphData (batchResponses r mdmResponse securityResponse)).authStrengthPolicies = none)
    ∧ ((batchResponses r mdmResponse securityResponse 16).success = false →
        (fetchMicrosoftGraphData (batchResponses r mdmResponse securityResponse)).namedLocations = [])
    ∧ ((batchResponses r mdmResponse securityResponse 17).success = false →
        (fetchMicrosoftGraphData (batchResponses r mdmResponse securityResponse)).legacyAuthStatus = none)
    ∧ ((batchResponses r mdmResponse securityResponse 18).success = false →
        (fetchMicrosoftGraphData (batchResponses r mdmResponse securityResponse)).passwordResetPolicy = none)
    ∧ ((batchResponses r mdmResponse securityResponse 19).success = false →
        (fetchMicrosoftGraphData (batchResponses r mdmResponse securityResponse)).administrativeUnits = [])
    ∧ ((batchResponses r mdmResponse securityResponse 20).success = false →
        (fetchMicrosoftGraphData (batchResponses r mdmResponse securityResponse)).pimConfiguration = none)
    ∧ ((batchResponses r mdmResponse securityResponse 21).success = false →
        (fetchMicrosoftGraphData (batchResponses r mdmResponse securityResponse)).sharePointSharing = none)
    ∧ ((batchResponses r mdmResponse securityResponse 22).success = false →
        (fetchMicrosoftGraphData (batchResponses r mdmResponse securityResponse)).dlpPolicies = [])
    ∧ ((batchResponses r mdmResponse securityResponse 23).success = false →
        (fetchMicrosoftGraphData (batchResponses r mdmResponse securityResponse)).retentionPolicies = [])
    ∧ ((batchResponses r mdmResponse securityResponse 24).success = false →
        (fetchMicrosoftGraphData (batchResponses r mdmResponse securityResponse)).organizationSettings = none)
    ∧ ((batchResponses r mdmResponse securityResponse 25).success = false →
        (fetchMicrosoftGraphData (batchResponses r mdmResponse securityResponse)).defenderForOffice = none)
    ∧ ((batchResponses r mdmResponse securityResponse 26).success = false →
        (fetchMicrosoftGraphData (batchResponses r mdmResponse securityResponse)).intuneCompliancePolicies = [])
    ∧ ((batchResponses r mdmResponse securityResponse 27).success = false →
        (fetchMicrosoftGraphData (batchResponses r mdmResponse securityResponse)).exchangeTransportRules = [])
    ∧ ((batchResponses r mdmResponse securityResponse 28).success = false →
        (fetchMicrosoftGraphData (batchResponses r mdmResponse securityResponse)).emailAuthentication = none) := by
  constructor
  · intro i hi hfail
    have hne24 : i ≠ 24 := by
      intro h24
      rw [h24, batchResponses] at hfail
      simp [checkOrganizationSettings] at hfail
    obtain ⟨p, hp, hip⟩ := cover_endpointMap i hi hne24
    exact ⟨p, hp, hip, mem_collectApiErrors _ p hp i hip hfail⟩
  · refine ⟨?_, ?_, ?_, ?_, ?_, ?_, ?_, ?_, ?_, ?_, ?_, ?_, ?_, ?_, ?_, ?_, ?_, ?_,
      ?_, ?_, ?_, ?_, ?_, ?_, ?_, ?_, ?_, ?_, ?_⟩ <;>
    · intro hf
      simp [fetchMicrosoftGraphData, valueOrDefault, dataOrDefault, hf]

/-- Closed instance of `fetchMicrosoftGraphData_partial_failure`: with
every ordinary call failed, the first failed call is recorded under the
`users` endpoint. -/
theorem fetchMicrosoftGraphData_partial_failure_witness :
    (batchResponses (fun _ => { success := false }) { success := false } { success := false } 0).success
        = false
    ∧ ∃ p ∈ endpointMapList, 0 ∈ p.2
        ∧ ("graph.microsoft.com/beta/" ++ p.1)
            ∈ (fetchMicrosoftGraphData (batchResponses (fun _ => { success := false })
                { success := false } { success := false })).apiErrors :=
  ⟨rfl,
   (fetchMicrosoftGraphData_partial_failure (fun _ => { success := false })
     { success := false } { success := false }).1 0 (by decide) rfl⟩
